import Mathlib

/-!
Formal model of the jabterm terminal server core
(`src/server/jabtermServer.ts` and `src/server/utils.ts`).

The development shallowly embeds the server's per-session protocol state
machine (`onWsMessage`, the `ws.on("close")`/`ws.on("error")` handlers and the
`ptyProcess.onExit` handler inside `createJabtermServer`), the upgrade router
(`checkOrigin`, `handleUpgrade`), the lifecycle controller (`close`,
`address`, `killAndCloseClients`) and the close-code normalizer
(`normalizeCloseCode`).

External collaborators (the WebSocket transport, `JSON.parse`,
JavaScript's `Number`/`String` coercions, node-pty) are modelled by explicit
data: an inbound text frame carries both its raw content and the outcome of
`JSON.parse` on it; socket readiness and the success of `pty.resize` are
inputs to the step functions; side-effecting calls (`ws.send`, `ws.close`,
`pty.kill`, `pty.write`, `pty.resize`, handler detachment) are recorded as an
ordered effect list.
-/

namespace Jabterm

/-! ## JSON values (results of `JSON.parse`) -/

/-- A JSON value as produced by `JSON.parse`. Numbers are modelled as
integers: every numeric field this server inspects (`version`, `cols`,
`rows`, close codes) is an integer in the protocol. -/
inductive JVal where
  | jnull
  | jbool (b : Bool)
  | jnum (n : Int)
  | jstr (s : String)
  | jarr (xs : List JVal)
  | jobj (fields : List (String × JVal))

/-- Property access `v.k` on a parsed JSON value: a lookup in an object's
field list, `undefined` (`none`) on every other value. -/
def getProp (v : JVal) (k : String) : Option JVal :=
  match v with
  | .jobj fields => fields.lookup k
  | _ => none

/-- The JavaScript test `typeof control === "object" && control` from
`onWsMessage`: objects and arrays pass, `null` is excluded by truthiness,
and primitives are not of type "object". -/
def isTruthyObject (v : JVal) : Bool :=
  match v with
  | .jobj _ => true
  | .jarr _ => true
  | _ => false

/-- JavaScript whitespace accepted by `Number(string)` coercion. -/
def jsWhitespace (c : Char) : Bool :=
  c == ' ' || c == '\t' || c == '\n' || c == '\r' || c == '\x0b' || c == '\x0c'

/-- Parse a nonempty all-digit character list as a natural number. -/
def digitsToNat? (cs : List Char) : Option Nat :=
  if cs ≠ [] ∧ cs.all Char.isDigit then
    some (cs.foldl (fun acc c => 10 * acc + (c.toNat - '0'.toNat)) 0)
  else none

/-- JavaScript `Number(s)` on a string: all-whitespace coerces to `0`,
an optionally signed decimal integer literal to its value, anything else to
`NaN` (`none`). (Fractional, exponent and hex literals are outside the
protocol's integer domain and coerce to `none` here.) -/
def jsStrToNumber (s : String) : Option Int :=
  let t := ((s.data.dropWhile jsWhitespace).reverse.dropWhile jsWhitespace).reverse
  match t with
  | [] => some 0
  | '-' :: rest => (digitsToNat? rest).map (fun n => -(n : Int))
  | '+' :: rest => (digitsToNat? rest).map (fun n => (n : Int))
  | _ => (digitsToNat? t).map (fun n => (n : Int))

/-- JavaScript `Number(v)` coercion of a JSON value; `none` models `NaN`.
`null → 0`, booleans to `0`/`1`, strings via `jsStrToNumber`; an empty array
coerces to `0` and a one-element array to its element's coercion (JS
stringifies the array first), other arrays and objects to `NaN`. -/
def jsToNumber (v : JVal) : Option Int :=
  match v with
  | .jnull => some 0
  | .jbool b => some (if b then 1 else 0)
  | .jnum n => some n
  | .jstr s => jsStrToNumber s
  | .jarr [] => some 0
  | .jarr [.jnum n] => some n
  | .jarr [.jstr s] => jsStrToNumber s
  | .jarr _ => none
  | .jobj _ => none

/-- JavaScript `Number(x)` where `x` is a possibly-absent property:
`Number(undefined)` is `NaN`. -/
def jsNumberOfField (field : Option JVal) : Option Int :=
  match field with
  | none => none
  | some v => jsToNumber v

/-- JavaScript `n || d` after a `Number` coercion: `NaN` (`none`) and `0`
are falsy and give the default. -/
def jsOr (n : Option Int) (d : Int) : Int :=
  match n with
  | none => d
  | some 0 => d
  | some m => m

/-- JavaScript `String(v)` rendering of a JSON value (used in the protocol
mismatch message via the `${...}` template). -/
def jsToString : JVal → String
  | .jnull => "null"
  | .jbool true => "true"
  | .jbool false => "false"
  | .jnum n => toString n
  | .jstr s => s
  | .jarr xs => String.intercalate "," (xs.attach.map (fun x => jsToString x.1))
  | .jobj _ => "[object Object]"
decreasing_by
  have h := List.sizeOf_lt_of_mem x.2
  simp only [JVal.jarr.sizeOf_spec]
  omega

/-- JavaScript `String(x)` where `x` is a possibly-absent property. -/
def jsToStringOfField (field : Option JVal) : String :=
  match field with
  | none => "undefined"
  | some v => jsToString v

/-! ## Session state machine -/

/-- `ws.readyState` of the session's WebSocket. -/
inductive WsReady where
  | connecting
  | open
  | closing
  | closed
deriving DecidableEq, Repr

/-- The mutable per-session fields of the `Session` record that the
handlers read and write (`terminalId`, `ws` and `pty` are identities,
not state). -/
structure SessionSt where
  ptyExited : Bool
  wsClosed : Bool
  helloVersion : Option Int
deriving DecidableEq, Repr

/-- A session with neither half torn down and no hello received yet. -/
def activeSt : SessionSt := ⟨false, false, none⟩

/-- Side-effecting calls the server issues, in program order. -/
inductive Effect where
  /-- `ws.send(JSON.stringify(obj))` of a control object. -/
  | sendFrame (v : JVal)
  /-- `ws.send(data)` of raw pty output. -/
  | sendText (data : String)
  /-- `ws.close(code, reason)`. -/
  | wsClose (code : Int) (reason : String)
  /-- `ptyProcess.kill()`. -/
  | ptyKill
  /-- `ptyProcess.resize(cols, rows)`. -/
  | ptyResize (cols rows : Int)
  /-- `ptyProcess.write(data)`. -/
  | ptyWrite (data : String)
  /-- `ws.off("message", onWsMessage)`. -/
  | detachMessageHandler
  /-- `sessions.delete(session)`. -/
  | removeSession
  /-- `ptys.delete(ptyProcess)`. -/
  | removePty
  /-- `pty.spawn(...)` — only ever issued by the session layer, never
  during upgrade routing. -/
  | spawnPty
  /-- `wss.handleUpgrade(...)` promoting the request to a connection. -/
  | wsUpgrade
  /-- `replyHttpError`'s `socket.write` of an HTTP error response. -/
  | httpReply (status : Nat) (reason : String)
  /-- `replyHttpError`'s `socket.destroy()`. -/
  | destroySocket

/-- The server's protocol version constant `JABTERM_PROTOCOL_VERSION`. -/
def JABTERM_PROTOCOL_VERSION : Int := 1

/-- The `{type:"error", message}` control object built by `sendError`. -/
def errorObj (message : String) : JVal :=
  .jobj [("type", .jstr "error"), ("message", .jstr message)]

/-- `sendError(message)`: sends an error frame only when the socket is
open (`ws.readyState !== WebSocket.OPEN` returns early). -/
def sendErrorEffects (ready : WsReady) (message : String) : List Effect :=
  if ready = WsReady.open then [.sendFrame (errorObj message)] else []

/-- The text of the protocol-mismatch error frame:
`` `Protocol mismatch: client=${String(control.version)} server=${JABTERM_PROTOCOL_VERSION}` ``. -/
def mismatchMsg (version : Option JVal) : String :=
  "Protocol mismatch: client=" ++ jsToStringOfField version ++
    " server=" ++ toString JABTERM_PROTOCOL_VERSION

/-- An inbound text frame: its raw content together with the outcome of
`JSON.parse` on that content (`none` when parsing throws). -/
structure TextFrame where
  content : String
  parsed : Option JVal

/-- Whether `onWsMessage` recognizes the frame as a control frame
(`hello` or `resize`): the content starts with `{`, parses, is a truthy
object, and its `type` is the string `"hello"` or `"resize"`. Any other
frame is forwarded verbatim to the pty. -/
def treatedAsControl (f : TextFrame) : Bool :=
  (f.content.data.head? == some '\x7b') &&
    (match f.parsed with
     | some v =>
       isTruthyObject v &&
         (match getProp v "type" with
          | some (.jstr "hello") => true
          | some (.jstr "resize") => true
          | _ => false)
     | none => false)

/-- The dimension actually applied by the resize branch:
`Math.max(Number(control.cols) || 80, 10)` (resp. rows with default 24). -/
def resizeDim (field : Option JVal) (dflt : Int) : Int :=
  max (jsOr (jsNumberOfField field) dflt) 10

/-- The `onWsMessage` handler: state transition and issued effects for one
inbound text frame. `ready` is `ws.readyState` at the time of the message,
`resizeFails` tells whether a `ptyProcess.resize` call would throw. -/
def onWsMessage (st : SessionSt) (ready : WsReady) (resizeFails : Bool)
    (f : TextFrame) : SessionSt × List Effect :=
  if st.wsClosed then (st, [])
  else if st.ptyExited then
    (st, if ready = WsReady.open then [.wsClose 1011 "pty_exited"] else [])
  else
    -- `try { if (msgStr.startsWith("{")) { const control = JSON.parse(msgStr); ... } } catch {}`
    let ctl : Option JVal :=
      if f.content.data.head? == some '\x7b' then
        match f.parsed with
        | some v => if isTruthyObject v then some v else none
        | none => none
      else none
    match ctl with
    | some v =>
      match getProp v "type" with
      | some (.jstr "hello") =>
        let version := jsNumberOfField (getProp v "version")
        let st1 := { st with helloVersion := version }
        if version = some JABTERM_PROTOCOL_VERSION then
          (st1, [])
        else
          ({ st1 with wsClosed := true },
            sendErrorEffects ready (mismatchMsg (getProp v "version")) ++
              [.wsClose 1002 "protocol_mismatch", .ptyKill])
      | some (.jstr "resize") =>
        let cols := resizeDim (getProp v "cols") 80
        let rows := resizeDim (getProp v "rows") 24
        (st, .ptyResize cols rows ::
          (if resizeFails then sendErrorEffects ready "Resize failed" else []))
      | _ => (st, [.ptyWrite f.content])
    | none => (st, [.ptyWrite f.content])

/-- The `ptyProcess.onExit` handler: marks the pty exited, removes the
session from the server's sets, detaches the message handler, and — when
the socket half is still up — sends an error frame for a non-zero exit
code and closes the socket (1000 `pty_exit` on clean exit, 1011
`pty_error` otherwise). The `signal` argument is only logged. -/
def onPtyExit (st : SessionSt) (ready : WsReady) (exitCode : Int)
    (_signal : Int) : SessionSt × List Effect :=
  let st1 := { st with ptyExited := true }
  let base := [Effect.removePty, Effect.removeSession, Effect.detachMessageHandler]
  let errs :=
    if st.wsClosed = false ∧ ready = WsReady.open ∧ exitCode ≠ 0 then
      sendErrorEffects ready ("PTY exited with code " ++ toString exitCode)
    else []
  let closes :=
    if st.wsClosed = false ∧ ready = WsReady.open then
      [Effect.wsClose (if exitCode = 0 then 1000 else 1011)
        (if exitCode = 0 then "pty_exit" else "pty_error")]
    else []
  (st1, base ++ errs ++ closes)

/-- The `ws.on("close")` handler: marks the socket closed and kills the
pty when it has not already exited. -/
def onWsClose (st : SessionSt) : SessionSt × List Effect :=
  ({ st with wsClosed := true },
    if st.ptyExited then [] else [.ptyKill])

/-- The `ws.on("error")` handler: logs the error and nothing else. -/
def onWsError (st : SessionSt) : SessionSt × List Effect :=
  (st, [])

/-- An event delivered to a session: an inbound message, a socket error,
a socket close, or the pty exiting. -/
inductive SessEvent where
  | message (ready : WsReady) (resizeFails : Bool) (f : TextFrame)
  | wsError
  | wsCloseEv
  | ptyExitEv (ready : WsReady) (exitCode signal : Int)

/-- Dispatch one event to the corresponding handler. -/
def processEvent (st : SessionSt) : SessEvent → SessionSt × List Effect
  | .message ready resizeFails f => onWsMessage st ready resizeFails f
  | .wsError => onWsError st
  | .wsCloseEv => onWsClose st
  | .ptyExitEv ready exitCode signal => onPtyExit st ready exitCode signal

/-- Process a list of events in order, accumulating effects. -/
def processEvents (st : SessionSt) : List SessEvent → SessionSt × List Effect
  | [] => (st, [])
  | e :: rest =>
    let (st1, effs1) := processEvent st e
    let (st2, effs2) := processEvents st1 rest
    (st2, effs1 ++ effs2)

/-! ## Lifecycle controller: `close()`, `address()`, `killAndCloseClients` -/

/-- A snapshot of one live session as seen by the shutdown sweep:
its identity, its socket's readiness, whether its pty already exited,
and its pty's identity. -/
structure SessSnap where
  sid : Nat
  ready : WsReady
  ptyExited : Bool
  pid : Nat
deriving DecidableEq, Repr

/-- Events of the shutdown sequence, in program order. -/
inductive ShutEv where
  /-- `session.wsClosed = true`. -/
  | markClosed (sid : Nat)
  /-- `session.ws.off("message", session.onWsMessage)`. -/
  | detach (sid : Nat)
  /-- `session.ws.close(code, reason)`. -/
  | closeSock (sid : Nat) (code : Int) (reason : String)
  /-- `session.ws.terminate()`. -/
  | terminate (sid : Nat)
  /-- the fixed 100 ms settle wait `await new Promise(r => setTimeout(r, 100))`. -/
  | settle
  /-- `pty.kill()`. -/
  | killPty (pid : Nat)
  /-- `sessions.clear(); ptys.clear()`. -/
  | clearSets
  /-- `wss.close(...)` (with its 2000 ms timeout fallback). -/
  | wssClose
  /-- `httpServer.close(...)` (with its 2000 ms timeout fallback). -/
  | httpClose
deriving DecidableEq, Repr

/-- Whether a shutdown event is a process kill. -/
def ShutEv.isKill : ShutEv → Bool
  | .killPty _ => true
  | _ => false

/-- Phase 1 loop body of `killAndCloseClients` for one session: mark the
socket closed, detach the message handler, gracefully close the socket when
it is OPEN or CONNECTING, then unconditionally terminate it. -/
def closeSessionEvents (s : SessSnap) : List ShutEv :=
  [.markClosed s.sid, .detach s.sid] ++
    (if s.ready = WsReady.open ∨ s.ready = WsReady.connecting then
      [ShutEv.closeSock s.sid 1001 "server_shutdown"]
    else []) ++
    [.terminate s.sid]

/-- The full `killAndCloseClients` event sequence: phase 1 over every
session, the settle wait, then phase 2 killing every not-yet-exited
session pty and every pty in the redundant `ptys` set, and finally
clearing both sets. -/
def killAndCloseClients (ss : List SessSnap) (ps : List Nat) : List ShutEv :=
  (ss.flatMap closeSessionEvents) ++ [ShutEv.settle] ++
    ((ss.filterMap fun s => if s.ptyExited then none else some (ShutEv.killPty s.pid)) ++
      ps.map ShutEv.killPty ++ [ShutEv.clearSets])

/-- The lifecycle controller's mutable state. `closePromise` holds the
identity of the shared completion promise once `close()` has been called;
`httpAddr` is `httpServer.address()` (`none` when not listening). -/
structure ServerState where
  listened : Bool
  closing : Bool
  closePromise : Option Nat
  nextPromise : Nat
  httpAddr : Option Nat
  sessions : List SessSnap
  ptys : List Nat

/-- `close()`, observed after its teardown ran to completion. A call with
`closePromise` already set returns that same promise and performs nothing;
the first call allocates the shared promise, runs `killAndCloseClients`,
closes the WebSocket acceptor and the HTTP listener (after which
`httpServer.address()` is `null`), and stores the promise. JavaScript's
event loop runs each `close()` invocation's synchronous prefix — including
the `closePromise` assignment — atomically, so concurrent callers are
sequenced and every later caller observes the stored promise. -/
def close (st : ServerState) : Nat × ServerState × List ShutEv :=
  match st.closePromise with
  | some p => (p, st, [])
  | none =>
    let p := st.nextPromise
    ⟨p,
      { st with
          closing := true
          closePromise := some p
          nextPromise := p + 1
          sessions := []
          ptys := []
          httpAddr := none },
      killAndCloseClients st.sessions st.ptys ++ [ShutEv.wssClose, ShutEv.httpClose]⟩

/-- `address()`: throws `"Server is not listening"` when
`httpServer.address()` is `null` (before `listen()` or after `close()`). -/
def address (st : ServerState) : Except String Nat :=
  match st.httpAddr with
  | none => .error "Server is not listening"
  | some a => .ok a

/-! ## Upgrade router: `checkOrigin` and `handleUpgrade` -/

/-- The `allowedOrigins` option: absent, an exact-match allow list, or a
custom predicate. A predicate result of `none` models the hook throwing
(caught and treated as rejection). -/
inductive OriginPolicy where
  | noPolicy
  | allowList (xs : List String)
  | predicate (f : String → Option Bool)

/-- An upgrade request as the router sees it: the URL path and the
`Origin` header (`none` when the header is absent or not a string). -/
structure UpgradeReq where
  pathname : String
  origin : Option String

/-- `checkOrigin`: no configured policy always passes; a missing `Origin`
header always passes; JavaScript's `if (!origin) return true` also lets an
empty-string `Origin` header pass (the empty string is falsy); otherwise
an allow list requires exact membership and a predicate must return a
truthy value without throwing. -/
def checkOrigin (pol : OriginPolicy) (origin : Option String) : Bool :=
  match pol with
  | .noPolicy => true
  | pol =>
    match origin with
    | none => true
    | some o =>
      if o = "" then true
      else
        match pol with
        | .noPolicy => true
        | .allowList xs => xs.contains o
        | .predicate f => (f o).getD false

/-- The `authenticate` wrapper: `true` when no hook is configured,
otherwise the hook's boolean result, with a throw (`none`) rejecting. -/
def authenticate (hook : Option (Option Bool)) : Bool :=
  match hook with
  | none => true
  | some r => r.getD false

/-- Path matching of `handleUpgrade`: base path `/` matches everything,
otherwise the path must equal the base path or extend it with `/`. -/
def matchesPath (basePath pathname : String) : Bool :=
  if basePath = "/" then true
  else pathname = basePath || (basePath ++ "/").data.isPrefixOf pathname.data

/-- JavaScript `decodeURIComponent`, modelled as the identity: terminal
identifiers without percent-escapes decode to themselves, and no claim
depends on percent-decoding. -/
def decodeURIComponent (s : String) : String := s

/-- Terminal-id extraction of `handleUpgrade`: the URL-decoded path suffix
after the base path, with leading slashes stripped; empty means none. -/
def extractTerminalId (basePath pathname : String) : Option String :=
  if basePath ≠ "/" then
    if pathname ≠ basePath then
      let rest := String.mk ((pathname.data.drop basePath.data.length).dropWhile (· == '/'))
      if rest ≠ "" then some (decodeURIComponent rest) else none
    else none
  else
    let rest := String.mk (pathname.data.dropWhile (· == '/'))
    if rest ≠ "" then some (decodeURIComponent rest) else none

/-- Outcome of routing one upgrade request. -/
inductive UpgradeResult where
  | rejected (status : Nat) (reason : String)
  | accepted (terminalId : Option String)
deriving DecidableEq, Repr

/-- `handleUpgrade`: reject with an HTTP error (reply + socket destroy)
on path mismatch, origin failure, or authentication failure — in that
order — and otherwise promote the connection. `auth` is the result of the
`authenticate` wrapper. Routing never spawns a process: the only effects
are the HTTP error reply or the upgrade hand-off. -/
def handleUpgrade (basePath : String) (pol : OriginPolicy) (auth : Bool)
    (req : UpgradeReq) : UpgradeResult × List Effect :=
  if ¬ matchesPath basePath req.pathname then
    (.rejected 404 "Not found", [.httpReply 404 "Not found", .destroySocket])
  else if ¬ checkOrigin pol req.origin then
    (.rejected 403 "Forbidden", [.httpReply 403 "Forbidden", .destroySocket])
  else if ¬ auth then
    (.rejected 401 "Unauthorized", [.httpReply 401 "Unauthorized", .destroySocket])
  else
    (.accepted (extractTerminalId basePath req.pathname), [.wsUpgrade])

/-! ## `normalizeCloseCode` (`src/server/utils.ts`) -/

/-- `normalizeCloseCode(code)` after the `Number(code)` coercion: the
argument is that coercion's result, with `none` for `NaN`/`±Infinity` and
a rational for a finite number, so `Number.isInteger` is the test
`den = 1`. Non-integers, values outside `[1000, 4999]`, and the reserved
codes 1005/1006/1015 all collapse to `1000`; every other integer is
returned unchanged. -/
def normalizeCloseCode (n : Option ℚ) : Int :=
  match n with
  | none => 1000
  | some q =>
    if q.den ≠ 1 then 1000
    else if q.num < 1000 ∨ 4999 < q.num then 1000
    else if q.num = 1005 ∨ q.num = 1006 ∨ q.num = 1015 then 1000
    else q.num

/-! ## Frame constructors and frame classifiers used in the theorems -/

/-- A parsed `{type:"hello", version:V}` control object with integer version. -/
def helloObj (V : Int) : JVal :=
  .jobj [("type", .jstr "hello"), ("version", .jnum V)]

/-- A parsed `{type:"resize", cols, rows}` control object. -/
def resizeObj (cv rv : JVal) : JVal :=
  .jobj [("type", .jstr "resize"), ("cols", cv), ("rows", rv)]

/-- A parsed `{type:"resize"}` object whose `cols`/`rows` fields may each be
absent. -/
def resizeObjOpt (cv? rv? : Option JVal) : JVal :=
  .jobj (("type", .jstr "resize") ::
    ((cv?.map (fun c => ("cols", c))).toList ++ (rv?.map (fun r => ("rows", r))).toList))

/-- Whether an effect sends a `{type:"error", ...}` frame. -/
def isErrorFrame (e : Effect) : Bool :=
  match e with
  | .sendFrame v =>
    match getProp v "type" with
    | some (.jstr t) => t == "error"
    | _ => false
  | _ => false

/-- Whether an effect sends a `{type:"ptyExit", ...}` frame. -/
def isPtyExitFrame (e : Effect) : Bool :=
  match e with
  | .sendFrame v =>
    match getProp v "type" with
    | some (.jstr t) => t == "ptyExit"
    | _ => false
  | _ => false

/-! ## C9 — `normalizeCloseCode` -/

/-- C9: `normalizeCloseCode` maps every non-integer, every value outside
`[1000, 4999]`, and the reserved codes 1005/1006/1015 to the default 1000;
every other integer in range is returned unchanged; and the result is
always a valid retransmittable close code. -/
theorem normalizeCloseCode_valid_retransmittable (c : Option ℚ) :
    (1000 ≤ normalizeCloseCode c ∧ normalizeCloseCode c ≤ 4999 ∧
      normalizeCloseCode c ≠ 1005 ∧ normalizeCloseCode c ≠ 1006 ∧
      normalizeCloseCode c ≠ 1015) ∧
    (c = none → normalizeCloseCode c = 1000) ∧
    (∀ q : ℚ, c = some q → q.den ≠ 1 → normalizeCloseCode c = 1000) ∧
    (∀ n : Int, c = some (n : ℚ) →
      (n < 1000 ∨ 4999 < n ∨ n = 1005 ∨ n = 1006 ∨ n = 1015) →
      normalizeCloseCode c = 1000) ∧
    (∀ n : Int, c = some (n : ℚ) → 1000 ≤ n → n ≤ 4999 →
      n ≠ 1005 → n ≠ 1006 → n ≠ 1015 → normalizeCloseCode c = n) := by
  refine ⟨?_, ?_, ?_, ?_, ?_⟩
  · cases c with
    | none => simp [normalizeCloseCode]
    | some q =>
      simp only [normalizeCloseCode]
      split_ifs with h1 h2 h3
      · omega
      · omega
      · omega
      · push_neg at h2 h3
        omega
  · intro h
    subst h
    rfl
  · intro q hq hden
    subst hq
    simp [normalizeCloseCode, hden]
  · intro n hn hcases
    subst hn
    simp only [normalizeCloseCode, Rat.den_intCast, Rat.num_intCast]
    split_ifs with h1 h2 h3
    · rfl
    · rfl
    · rfl
    · omega
  · intro n hn h1 h2 h3 h4 h5
    subst hn
    simp only [normalizeCloseCode, Rat.den_intCast, Rat.num_intCast]
    split_ifs with g1 g2 g3
    · omega
    · omega
    · omega
    · rfl

/-- Closed instances of C9: the reserved code 1006 collapses to 1000 and
an ordinary in-range code 4000 passes through. -/
theorem normalizeCloseCode_valid_retransmittable_witness :
    normalizeCloseCode (some (1006 : ℚ)) = 1000 ∧
    normalizeCloseCode (some (4000 : ℚ)) = 4000 := by
  have h1 := (normalizeCloseCode_valid_retransmittable (some (1006 : ℚ))).2.2.2.1
  have h2 := (normalizeCloseCode_valid_retransmittable (some (4000 : ℚ))).2.2.2.2
  refine ⟨h1 1006 (by norm_num) (by norm_num), ?_⟩
  have := h2 4000 (by norm_num) (by norm_num) (by norm_num)
    (by norm_num) (by norm_num) (by norm_num)
  simpa using this

/-! ## C1 — the `ptyProcess.onExit` handler never sends a `ptyExit` frame -/

/-- C1 (failing behavior): when the pty exits while the socket is open on
an otherwise untouched session, the handler emits, for a clean exit, only
the set-removals, the handler detach and a `1000 "pty_exit"` close — no
frame at all — and for a non-zero exit an `{type:"error"}` frame followed
by a `1011 "pty_error"` close. In neither run does any
`{type:"ptyExit", exitCode, signal}` frame occur, contradicting the spec's
wire table and the repository's own e2e test
("sends ptyExit message before websocket close"). -/
theorem onPtyExit_never_sends_ptyExit_frame :
    (onPtyExit activeSt .open 0 0).2 =
      [.removePty, .removeSession, .detachMessageHandler, .wsClose 1000 "pty_exit"] ∧
    ((onPtyExit activeSt .open 0 0).2.all (fun e => !isPtyExitFrame e)) = true ∧
    (onPtyExit activeSt .open 3 0).2 =
      [.removePty, .removeSession, .detachMessageHandler,
        .sendFrame (errorObj ("PTY exited with code " ++ toString (3 : Int))),
        .wsClose 1011 "pty_error"] ∧
    ((onPtyExit activeSt .open 3 0).2.all (fun e => !isPtyExitFrame e)) = true := by
  refine ⟨rfl, rfl, ?_, ?_⟩ <;> rfl

/-! ## C4 — idempotent `close()` and failing `address()` afterwards -/

/-- A listening server with one live open session and its pty, before any
`close()` call. -/
def serverSt0 : ServerState :=
  { listened := true
    closing := false
    closePromise := none
    nextPromise := 0
    httpAddr := some 3223
    sessions := [⟨0, .open, false, 5⟩]
    ptys := [5] }

/-- C4: the first `close()` stores a shared promise; every later call
returns that same promise with no further teardown effects and leaves the
state untouched, and after the close `address()` fails with the
"not listening" error. -/
theorem close_idempotent (st : ServerState) (h : st.closePromise = none) :
    close (close st).2.1 = ((close st).1, (close st).2.1, []) ∧
    (close st).2.1.closePromise = some (close st).1 ∧
    address (close st).2.1 = .error "Server is not listening" ∧
    close (close (close st).2.1).2.1 = ((close st).1, (close st).2.1, []) := by
  simp [close, address, h]

/-- Closed instance of C4 at a freshly-listening server with one live
session. -/
theorem close_idempotent_witness :
    close (close serverSt0).2.1 = ((close serverSt0).1, (close serverSt0).2.1, []) ∧
    (close serverSt0).2.1.closePromise = some (close serverSt0).1 ∧
    address (close serverSt0).2.1 = .error "Server is not listening" ∧
    close (close (close serverSt0).2.1).2.1 =
      ((close serverSt0).1, (close serverSt0).2.1, []) :=
  close_idempotent serverSt0 rfl

/-! ## C7 — origin policy and no spawn during routing -/

/-- Whether the configured policy, applied to a non-empty origin string,
rejects it: outside the allow list, or the predicate returns falsy or
throws. With no policy configured nothing is rejected. -/
def originRejects (pol : OriginPolicy) (o : String) : Bool :=
  match pol with
  | .noPolicy => false
  | .allowList xs => !xs.contains o
  | .predicate f => !(f o).getD false

/-- C7 counterexample: an upgrade request whose `Origin` header is present
but empty, with an allow-list that does not contain the empty string, is
*accepted* and promoted — `if (!origin) return true` treats the falsy empty
string like an absent header — refuting the claim that every present
out-of-list origin is rejected. -/
theorem empty_origin_bypasses_allowlist :
    (["https://example.com"] : List String).contains "" = false ∧
    checkOrigin (.allowList ["https://example.com"]) (some "") = true ∧
    handleUpgrade "/" (.allowList ["https://example.com"]) true ⟨"/", some ""⟩ =
      (.accepted none, [.wsUpgrade]) := by
  refine ⟨rfl, rfl, rfl⟩

/-- C7 (amended): an upgrade request whose `Origin` header is present and
*non-empty* and fails the configured policy (outside the allow list, or
rejected/thrown by the custom predicate) is answered with an HTTP error
reply and a socket destroy — never an upgrade, never a spawn — and a
request with no `Origin` header passes the origin check under every
policy. -/
theorem origin_policy_rejects_before_spawn (basePath : String) (pol : OriginPolicy)
    (auth : Bool) (req : UpgradeReq) (o : String)
    (horig : req.origin = some o) (hne : o ≠ "") (hrej : originRejects pol o = true) :
    (∃ status reason, handleUpgrade basePath pol auth req =
      (.rejected status reason, [.httpReply status reason, .destroySocket])) ∧
    Effect.spawnPty ∉ (handleUpgrade basePath pol auth req).2 ∧
    Effect.wsUpgrade ∉ (handleUpgrade basePath pol auth req).2 ∧
    (∀ pol' : OriginPolicy, checkOrigin pol' none = true) := by
  have hco : checkOrigin pol req.origin = false := by
    rw [horig]
    cases pol with
    | noPolicy => simp [originRejects] at hrej
    | allowList xs =>
      simp only [checkOrigin, if_neg hne]
      simp only [originRejects, Bool.not_eq_true'] at hrej
      exact hrej
    | predicate f =>
      simp only [checkOrigin, if_neg hne]
      simp only [originRejects, Bool.not_eq_true'] at hrej
      exact hrej
  by_cases hp : matchesPath basePath req.pathname = true
  · refine ⟨⟨403, "Forbidden", ?_⟩, ?_, ?_, ?_⟩
    · simp [handleUpgrade, hp, hco]
    · simp [handleUpgrade, hp, hco]
    · simp [handleUpgrade, hp, hco]
    · intro pol'
      cases pol' <;> rfl
  · refine ⟨⟨404, "Not found", ?_⟩, ?_, ?_, ?_⟩
    · simp [handleUpgrade, hp]
    · simp [handleUpgrade, hp]
    · simp [handleUpgrade, hp]
    · intro pol'
      cases pol' <;> rfl

/-- Closed instance of C7 (amended): a disallowed non-empty origin is
rejected with 403 and nothing is spawned or promoted. -/
theorem origin_policy_rejects_before_spawn_witness :
    (∃ status reason,
      handleUpgrade "/" (.allowList ["https://ok.example"]) true
          ⟨"/", some "https://evil.example"⟩ =
        (.rejected status reason, [.httpReply status reason, .destroySocket])) ∧
    Effect.spawnPty ∉
      (handleUpgrade "/" (.allowList ["https://ok.example"]) true
        ⟨"/", some "https://evil.example"⟩).2 ∧
    Effect.wsUpgrade ∉
      (handleUpgrade "/" (.allowList ["https://ok.example"]) true
        ⟨"/", some "https://evil.example"⟩).2 ∧
    (∀ pol' : OriginPolicy, checkOrigin pol' none = true) :=
  origin_policy_rejects_before_spawn "/" (.allowList ["https://ok.example"]) true
    ⟨"/", some "https://evil.example"⟩ "https://evil.example" rfl (by simp) (by rfl)

/-! ## C3 — two-phase shutdown: kills only after the settle interval -/

/-- Every event produced by the phase-1 loop body is a socket-side event,
never a process kill. -/
theorem closeSessionEvents_no_kill (s : SessSnap) :
    ∀ e ∈ closeSessionEvents s, e.isKill = false := by
  intro e he
  have hcases : e = ShutEv.markClosed s.sid ∨ e = ShutEv.detach s.sid ∨
      e = ShutEv.closeSock s.sid 1001 "server_shutdown" ∨ e = ShutEv.terminate s.sid := by
    by_cases h : s.ready = WsReady.open ∨ s.ready = WsReady.connecting <;>
      simp [closeSessionEvents, h] at he <;> tauto
  rcases hcases with rfl | rfl | rfl | rfl <;> rfl

/-- C3: the `killAndCloseClients` event sequence splits at the settle wait:
everything before it is kill-free and contains, for every live session, the
`wsClosed` flag set, the message-handler detach and the socket terminate;
every still-running session pty and every pty in the redundant set is
killed only after the settle event. -/
theorem shutdown_kills_only_after_settle (ss : List SessSnap) (ps : List Nat) :
    ∃ pre post,
      killAndCloseClients ss ps = pre ++ ShutEv.settle :: post ∧
      (∀ e ∈ pre, e.isKill = false) ∧
      (∀ s ∈ ss, ShutEv.markClosed s.sid ∈ pre ∧ ShutEv.detach s.sid ∈ pre ∧
        ShutEv.terminate s.sid ∈ pre) ∧
      (∀ s ∈ ss, s.ptyExited = false → ShutEv.killPty s.pid ∈ post) ∧
      (∀ p ∈ ps, ShutEv.killPty p ∈ post) := by
  refine ⟨ss.flatMap closeSessionEvents,
    (ss.filterMap fun s => if s.ptyExited then none else some (ShutEv.killPty s.pid)) ++
      ps.map ShutEv.killPty ++ [ShutEv.clearSets], ?_, ?_, ?_, ?_, ?_⟩
  · simp [killAndCloseClients, List.append_assoc]
  · intro e he
    rw [List.mem_flatMap] at he
    obtain ⟨s, _, hes⟩ := he
    exact closeSessionEvents_no_kill s e hes
  · intro s hs
    refine ⟨?_, ?_, ?_⟩ <;>
      refine List.mem_flatMap.mpr ⟨s, hs, ?_⟩ <;>
        by_cases h : s.ready = WsReady.open ∨ s.ready = WsReady.connecting <;>
          simp [closeSessionEvents, h]
  · intro s hs hrun
    refine List.mem_append.mpr (.inl (List.mem_append.mpr (.inl ?_)))
    exact List.mem_filterMap.mpr ⟨s, hs, by rw [if_neg (by simp [hrun])]⟩
  · intro p hp
    refine List.mem_append.mpr (.inl (List.mem_append.mpr (.inr ?_)))
    exact List.mem_map.mpr ⟨p, hp, rfl⟩

/-- Closed instance of C3: the shutdown trace of one open session plus one
orphaned pty decomposes around the settle event. -/
theorem shutdown_kills_only_after_settle_witness :
    ∃ pre post,
      killAndCloseClients [⟨0, .open, false, 5⟩] [9] = pre ++ ShutEv.settle :: post ∧
      (∀ e ∈ pre, e.isKill = false) ∧
      (∀ s ∈ [(⟨0, .open, false, 5⟩ : SessSnap)], ShutEv.markClosed s.sid ∈ pre ∧
        ShutEv.detach s.sid ∈ pre ∧ ShutEv.terminate s.sid ∈ pre) ∧
      (∀ s ∈ [(⟨0, .open, false, 5⟩ : SessSnap)], s.ptyExited = false →
        ShutEv.killPty s.pid ∈ post) ∧
      (∀ p ∈ [9], ShutEv.killPty p ∈ post) :=
  shutdown_kills_only_after_settle [⟨0, .open, false, 5⟩] [9]

/-! ## C8 — a socket error always ends in process termination -/

/-- No session event ever resets the `ptyExited` flag. -/
theorem processEvent_ptyExited_mono (st : SessionSt) (e : SessEvent)
    (h : st.ptyExited = true) : (processEvent st e).1.ptyExited = true := by
  cases e with
  | message ready resizeFails f =>
    by_cases hw : st.wsClosed <;> simp [processEvent, onWsMessage, hw, h]
  | wsError => simpa [processEvent, onWsError] using h
  | wsCloseEv => simpa [processEvent, onWsClose] using h
  | ptyExitEv ready exitCode signal => simp [processEvent, onPtyExit]

/-- `ptyExited` is monotone along any event sequence. -/
theorem processEvents_ptyExited_mono (evs : List SessEvent) (st : SessionSt)
    (h : st.ptyExited = true) : (processEvents st evs).1.ptyExited = true := by
  induction evs generalizing st with
  | nil => simpa [processEvents] using h
  | cons e rest ih =>
    simp only [processEvents]
    exact ih _ (processEvent_ptyExited_mono st e h)

/-- Processing a socket-close event guarantees the process side is
terminated: a kill is issued, or the pty had already exited (and the flag
persists to the end of the run). -/
theorem close_event_terminates (evs : List SessEvent) (st : SessionSt)
    (hclose : SessEvent.wsCloseEv ∈ evs) :
    Effect.ptyKill ∈ (processEvents st evs).2 ∨
      (processEvents st evs).1.ptyExited = true := by
  induction evs generalizing st with
  | nil => cases hclose
  | cons e rest ih =>
    rcases List.mem_cons.mp hclose with rfl | htail
    · by_cases hpe : st.ptyExited = true
      · right
        simp only [processEvents]
        exact processEvents_ptyExited_mono rest _
          (processEvent_ptyExited_mono st .wsCloseEv hpe)
      · left
        have he1 : (processEvent st SessEvent.wsCloseEv).2 = [Effect.ptyKill] := by
          simp [processEvent, onWsClose, hpe]
        simp only [processEvents, he1]
        exact List.mem_append.mpr (.inl (by simp))
    · rcases ih (processEvent st e).1 htail with hk | hx
      · left
        simp only [processEvents]
        exact List.mem_append.mpr (.inr hk)
      · right
        simpa [processEvents] using hx

/-- C8: under the WebSocket transport's guarantee that a `close` event
always follows an `error` event on an established socket, any event run
containing a socket error ends with the session's process terminated —
killed during the run unless it had already exited. The `ws.on("error")`
handler itself only logs; teardown rides on the subsequent `close`. -/
theorem socket_error_terminates_process (evs : List SessEvent) (st : SessionSt)
    (hcontract : ∀ pre suf, evs = pre ++ SessEvent.wsError :: suf →
      SessEvent.wsCloseEv ∈ suf)
    (herr : SessEvent.wsError ∈ evs) :
    Effect.ptyKill ∈ (processEvents st evs).2 ∨
      (processEvents st evs).1.ptyExited = true := by
  obtain ⟨pre, suf, hsplit⟩ := List.append_of_mem herr
  have hclose : SessEvent.wsCloseEv ∈ suf := hcontract pre suf hsplit
  refine close_event_terminates evs st ?_
  rw [hsplit]
  exact List.mem_append.mpr (.inr (List.mem_cons.mpr (.inr hclose)))

/-- Closed instance of C8: an error followed by the transport's close on a
fresh session kills the pty. -/
theorem socket_error_terminates_process_witness :
    Effect.ptyKill ∈ (processEvents activeSt [SessEvent.wsError, SessEvent.wsCloseEv]).2 ∨
      (processEvents activeSt [SessEvent.wsError, SessEvent.wsCloseEv]).1.ptyExited = true :=
  socket_error_terminates_process [SessEvent.wsError, SessEvent.wsCloseEv] activeSt
    (by
      intro pre suf h
      rcases pre with _ | ⟨a, _ | ⟨b, pre⟩⟩
      · simp only [List.nil_append, List.cons.injEq] at h
        rw [← h.2]
        simp
      · simp_all
      · simp_all)
    (by simp)

/-! ## Helper lemmas about the step function -/

/-- `x || d` keeps a non-zero coerced number. -/
theorem jsOr_ne_zero (n : Int) (d : Int) (hn : n ≠ 0) : jsOr (some n) d = n := by
  unfold jsOr
  split
  · simp_all
  · simp_all
  · simp_all

/-- `onWsMessage` on a well-formed hello frame: matching version records it
and does nothing else; any other version records it, sends the mismatch
error frame (when the socket is open), closes with 1002 and kills the pty. -/
theorem onWsMessage_hello (s : String) (V : Int) (ready : WsReady) (rf : Bool)
    (hs : s.data.head? = some '\x7b') :
    onWsMessage activeSt ready rf ⟨s, some (helloObj V)⟩ =
      if V = 1 then
        ({ ptyExited := false, wsClosed := false, helloVersion := some V }, [])
      else
        ({ ptyExited := false, wsClosed := true, helloVersion := some V },
          sendErrorEffects ready (mismatchMsg (some (.jnum V))) ++
            [.wsClose 1002 "protocol_mismatch", .ptyKill]) := by
  have h1 : getProp (helloObj V) "type" = some (.jstr "hello") := rfl
  have h2 : getProp (helloObj V) "version" = some (.jnum V) := rfl
  have hv : isTruthyObject (helloObj V) = true := rfl
  have h3 : jsNumberOfField (some (JVal.jnum V)) = some V := rfl
  unfold onWsMessage
  by_cases hV : V = 1
  · subst hV
    simp [activeSt, hs, h1, h2, hv, h3, JABTERM_PROTOCOL_VERSION]
  · simp [activeSt, hs, h1, h2, hv, h3, JABTERM_PROTOCOL_VERSION, hV]

/-- `onWsMessage` on a well-formed resize frame: applies the clamped
dimensions, emits the `"Resize failed"` error frame exactly when the
resize call throws, and leaves the session state untouched. -/
theorem onWsMessage_resize (s : String) (cv rv : JVal) (ready : WsReady) (rf : Bool)
    (hs : s.data.head? = some '\x7b') :
    onWsMessage activeSt ready rf ⟨s, some (resizeObj cv rv)⟩ =
      (activeSt, .ptyResize (resizeDim (some cv) 80) (resizeDim (some rv) 24) ::
        (if rf then sendErrorEffects ready "Resize failed" else [])) := by
  have ht : getProp (resizeObj cv rv) "type" = some (.jstr "resize") := rfl
  have hc : getProp (resizeObj cv rv) "cols" = some cv := rfl
  have hr : getProp (resizeObj cv rv) "rows" = some rv := rfl
  have hv : isTruthyObject (resizeObj cv rv) = true := rfl
  unfold onWsMessage
  simp [activeSt, hs, ht, hc, hr, hv]

/-! ## C2 — exact handshake version gate -/

/-- C2: on an active session with an open socket, a `{type:"hello",
version:V}` frame with `V ≠ 1` yields exactly one error frame, whose
message starts with "Protocol mismatch", followed by a 1002 close and a
pty kill, and marks the socket closed; `V = 1` yields no frame at all and
the session continues with the version recorded. -/
theorem hello_version_gate (V : Int) (s : String) (rf : Bool)
    (hs : s.data.head? = some '\x7b') :
    (V ≠ 1 →
      onWsMessage activeSt .open rf ⟨s, some (helloObj V)⟩ =
        ({ ptyExited := false, wsClosed := true, helloVersion := some V },
          [.sendFrame (errorObj (mismatchMsg (some (.jnum V)))),
            .wsClose 1002 "protocol_mismatch", .ptyKill]) ∧
      (onWsMessage activeSt .open rf ⟨s, some (helloObj V)⟩).2.countP isErrorFrame = 1 ∧
      ("Protocol mismatch".data.isPrefixOf (mismatchMsg (some (.jnum V))).data) = true) ∧
    (V = 1 →
      onWsMessage activeSt .open rf ⟨s, some (helloObj V)⟩ =
        ({ ptyExited := false, wsClosed := false, helloVersion := some 1 }, []) ∧
      (onWsMessage activeSt .open rf ⟨s, some (helloObj V)⟩).2.countP isErrorFrame = 0) := by
  have hstep := onWsMessage_hello s V .open rf hs
  constructor
  · intro hV
    rw [if_neg hV] at hstep
    refine ⟨?_, ?_, ?_⟩
    · exact hstep
    · rw [hstep]
      rfl
    · rfl
  · intro hV
    subst hV
    rw [if_pos rfl] at hstep
    exact ⟨hstep, by rw [hstep]; rfl⟩


/-- Closed instance of C2: version 2 is rejected with one mismatch error
frame, close 1002 and kill; version 1 passes silently. -/
theorem hello_version_gate_witness :
    (onWsMessage activeSt .open false
        ⟨"\x7b\"type\":\"hello\",\"version\":2\x7d", some (helloObj 2)⟩ =
      ({ ptyExited := false, wsClosed := true, helloVersion := some 2 },
        [.sendFrame (errorObj (mismatchMsg (some (.jnum 2)))),
          .wsClose 1002 "protocol_mismatch", .ptyKill]) ∧
      (onWsMessage activeSt .open false
        ⟨"\x7b\"type\":\"hello\",\"version\":2\x7d", some (helloObj 2)⟩).2.countP
          isErrorFrame = 1) ∧
    onWsMessage activeSt .open false
        ⟨"\x7b\"type\":\"hello\",\"version\":1\x7d", some (helloObj 1)⟩ =
      ({ ptyExited := false, wsClosed := false, helloVersion := some 1 }, []) := by
  have h2 := (hello_version_gate 2 "\x7b\"type\":\"hello\",\"version\":2\x7d" false rfl).1
    (by norm_num)
  have h1 := (hello_version_gate 1 "\x7b\"type\":\"hello\",\"version\":1\x7d" false rfl).2 rfl
  exact ⟨⟨h2.1, h2.2.1⟩, h1.1⟩

/-! ## C5 — frame classification boundary -/

/-- C5: on an active open session, any text frame not recognized as a
`hello`/`resize` control frame — it does not start with `{`, fails to
parse, parses to a non-object, or has another `type` — is written verbatim
to the pty with no other effect and no error frame; and a frame that
parses as a resize control object is never written to the pty. -/
theorem frame_classification_boundary :
    (∀ (f : TextFrame) (rf : Bool), treatedAsControl f = false →
      onWsMessage activeSt .open rf f = (activeSt, [.ptyWrite f.content]) ∧
      (onWsMessage activeSt .open rf f).2.countP isErrorFrame = 0) ∧
    (∀ (s : String) (v : JVal) (rf : Bool),
      s.data.head? = some '\x7b' → isTruthyObject v = true →
      getProp v "type" = some (.jstr "resize") →
      ∀ d, Effect.ptyWrite d ∉ (onWsMessage activeSt .open rf ⟨s, some v⟩).2) := by
  constructor
  · intro f rf h
    have hw : onWsMessage activeSt .open rf f = (activeSt, [.ptyWrite f.content]) := by
      unfold onWsMessage
      by_cases hc : (f.content.data.head? == some '\x7b') = true
      · cases hp : f.parsed with
        | none => simp [activeSt, hc, hp]
        | some v =>
          by_cases hv : isTruthyObject v = true
          · have hm : (match getProp v "type" with
                | some (JVal.jstr "hello") => true
                | some (JVal.jstr "resize") => true
                | _ => false) = false := by
              unfold treatedAsControl at h
              simp only [hc, hp, hv, Bool.true_and] at h
              exact h
            simp only [activeSt, hc, hp, hv, if_true, Bool.false_eq_true,
              if_false, Option.some.injEq]
            split
            · rename_i heq
              rw [heq] at hm
              simp at hm
            · rename_i heq
              rw [heq] at hm
              simp at hm
            · simp
          · simp [activeSt, hc, hp, hv]
      · simp [activeSt, hc]
    exact ⟨hw, by rw [hw]; rfl⟩
  · intro s v rf hhead hv htype d
    unfold onWsMessage
    cases rf <;> simp [activeSt, hhead, hv, htype, sendErrorEffects]

/-- Closed instance of C5: the malformed frame `"{not json"` is forwarded
as literal input, and a parsed resize frame is never written to the pty. -/
theorem frame_classification_boundary_witness :
    (onWsMessage activeSt .open false ⟨"\x7bnot json", none⟩ =
      (activeSt, [.ptyWrite "\x7bnot json"]) ∧
      (onWsMessage activeSt .open false ⟨"\x7bnot json", none⟩).2.countP isErrorFrame = 0) ∧
    (∀ d, Effect.ptyWrite d ∉
      (onWsMessage activeSt .open false
        ⟨"\x7b\"type\":\"resize\",\"cols\":80,\"rows\":24\x7d",
          some (resizeObj (.jnum 80) (.jnum 24))⟩).2) := by
  constructor
  · exact frame_classification_boundary.1 ⟨"\x7bnot json", none⟩ false rfl
  · exact frame_classification_boundary.2
      "\x7b\"type\":\"resize\",\"cols\":80,\"rows\":24\x7d"
      (resizeObj (.jnum 80) (.jnum 24)) false rfl rfl rfl

/-! ## C6 — resize clamping to the floor of 10 -/

/-- C6: every applied resize dimension is at least 10 (each clamped
independently), `cols=1, rows=1` yields exactly a 10×10 resize, a failing
resize emits the `"Resize failed"` error frame, and the session is neither
closed nor killed in any case. -/
theorem resize_clamped_to_floor (s : String) (cv rv : JVal) (rf : Bool)
    (hs : s.data.head? = some '\x7b') :
    onWsMessage activeSt .open rf ⟨s, some (resizeObj cv rv)⟩ =
      (activeSt, .ptyResize (resizeDim (some cv) 80) (resizeDim (some rv) 24) ::
        (if rf then [.sendFrame (errorObj "Resize failed")] else [])) ∧
    10 ≤ resizeDim (some cv) 80 ∧ 10 ≤ resizeDim (some rv) 24 ∧
    (resizeDim (some (.jnum 1)) 80 = 10 ∧ resizeDim (some (.jnum 1)) 24 = 10) ∧
    (∀ code reason,
      Effect.wsClose code reason ∉ (onWsMessage activeSt .open rf ⟨s, some (resizeObj cv rv)⟩).2) ∧
    Effect.ptyKill ∉ (onWsMessage activeSt .open rf ⟨s, some (resizeObj cv rv)⟩).2 := by
  have hstep := onWsMessage_resize s cv rv .open rf hs
  have hform : onWsMessage activeSt .open rf ⟨s, some (resizeObj cv rv)⟩ =
      (activeSt, .ptyResize (resizeDim (some cv) 80) (resizeDim (some rv) 24) ::
        (if rf then [.sendFrame (errorObj "Resize failed")] else [])) := by
    rw [hstep]
    cases rf <;> rfl
  refine ⟨hform, le_max_right _ _, le_max_right _ _, ⟨rfl, rfl⟩, ?_, ?_⟩
  · intro code reason
    rw [hform]
    cases rf <;> simp
  · rw [hform]
    cases rf <;> simp

/-- Closed instance of C6: a `cols=1, rows=1` resize applies 10×10, and a
failing resize emits the error frame without closing. -/
theorem resize_clamped_to_floor_witness :
    onWsMessage activeSt .open true
        ⟨"\x7b\"type\":\"resize\",\"cols\":1,\"rows\":1\x7d",
          some (resizeObj (.jnum 1) (.jnum 1))⟩ =
      (activeSt, [.ptyResize 10 10, .sendFrame (errorObj "Resize failed")]) := by
  have h := (resize_clamped_to_floor "\x7b\"type\":\"resize\",\"cols\":1,\"rows\":1\x7d"
    (.jnum 1) (.jnum 1) true rfl).1
  simpa using h

/-! ## C10 — resize field defaults of 80/24 before the floor of 10 -/

/-- C10: a missing, non-numeric, `NaN` or `0` `cols` (resp. `rows`) field
falls back to the default 80 (resp. 24) rather than the floor; explicit
values 1–9 and negative values clamp to exactly 10; and the applied
dimension is `max(Number(field) || default, 10)` throughout. -/
theorem resize_field_defaults (s : String) (hs : s.data.head? = some '\x7b') :
    (onWsMessage activeSt .open false ⟨s, some (resizeObjOpt none none)⟩).2 =
      [.ptyResize 80 24] ∧
    (∀ cv, jsToNumber cv = none → ∀ d : Int, 10 ≤ d → resizeDim (some cv) d = d) ∧
    (∀ cv, jsToNumber cv = some 0 → ∀ d : Int, 10 ≤ d → resizeDim (some cv) d = d) ∧
    jsToNumber (.jstr "abc") = none ∧
    (∀ d : Int, 10 ≤ d → resizeDim none d = d) ∧
    (∀ n : Int, 1 ≤ n → n ≤ 9 → ∀ d : Int, resizeDim (some (.jnum n)) d = 10) ∧
    (∀ n : Int, n < 0 → ∀ d : Int, resizeDim (some (.jnum n)) d = 10) ∧
    (∀ cv d, resizeDim (some cv) d = max (jsOr (jsToNumber cv) d) 10) := by
  refine ⟨?_, ?_, ?_, rfl, ?_, ?_, ?_, fun _ _ => rfl⟩
  · unfold onWsMessage
    simp only [activeSt, hs]
    rfl
  · intro cv hcv d hd
    simp only [resizeDim, jsNumberOfField, hcv, jsOr]
    exact max_eq_left hd
  · intro cv hcv d hd
    simp only [resizeDim, jsNumberOfField, hcv, jsOr]
    exact max_eq_left hd
  · intro d hd
    simp only [resizeDim, jsNumberOfField, jsOr]
    exact max_eq_left hd
  · intro n h1 h9 d
    simp only [resizeDim, jsNumberOfField, jsToNumber]
    rw [jsOr_ne_zero n d (by omega)]
    exact max_eq_right (by omega)
  · intro n hneg d
    simp only [resizeDim, jsNumberOfField, jsToNumber]
    rw [jsOr_ne_zero n d (by omega)]
    exact max_eq_right (by omega)

/-- Closed instance of C10: missing fields apply 80×24; `cols=5` clamps
to 10; `cols=0` falls back to 80. -/
theorem resize_field_defaults_witness :
    (onWsMessage activeSt .open false
      ⟨"\x7b\"type\":\"resize\"\x7d", some (resizeObjOpt none none)⟩).2 =
        [.ptyResize 80 24] ∧
    resizeDim (some (.jnum 5)) 80 = 10 ∧
    resizeDim (some (.jnum 0)) 80 = 80 := by
  have h := resize_field_defaults "\x7b\"type\":\"resize\"\x7d" rfl
  exact ⟨h.1, h.2.2.2.2.2.1 5 (by norm_num) (by norm_num) 80,
    h.2.2.1 (.jnum 0) rfl 80 (by norm_num)⟩

end Jabterm
